import Mathlib

/-!
Verification development for the diary bot (src/diary_bot.py).

The Python source is shallowly embedded: Notion blocks become an inductive
type (rich text is a list of plain-text spans, as in the Notion API), the
per-conversation `user_data` dict becomes a `Draft` structure, the persisted
`bot_data` dictionary `diary_entries` becomes an association list keyed by
calendar day number, and the scheduler callbacks become pure functions from
their inputs (current retry count, send outcome, entry-exists flag) to the
messages sent and the jobs they schedule.
-/

namespace DiaryBot

/-- A top-level Notion block, as consumed and produced by the bot.
Rich text is modelled as the list of the plain-text contents of its spans;
the source reads span lists from the API (`rich_text`), joins all spans of a
paragraph for `old_text`, but compares only the FIRST span of a heading. -/
inductive Block where
  | heading2 (rich_text : List String)
  | paragraph (rich_text : List String)
  | image (url : String)
  | other (btype : String)
deriving DecidableEq

/-- Returns true when the block is a paragraph block. -/
def Block.isParagraph : Block → Bool
  | .paragraph _ => true
  | _ => false

/-- The three free-text fields handled by `update_text_field`. -/
inductive Field where
  | memorable
  | grateful
  | worries
deriving DecidableEq

/-- The fixed field-to-label map (`heading_map` in the source). -/
def heading_map : Field → String
  | .memorable => "How was the day?"
  | .grateful => "Grateful for"
  | .worries => "Worries"

/-- Concatenation of the plain text of all rich-text spans, as the source
computes `old_text` with a join over `rich_text`. An empty span list gives
the empty string, matching the default `old_text = ""`. -/
def plain_text_of (rich_text : List String) : String :=
  String.join rich_text

/-- Mirrors the heading test in `update_text_field`: the block has type
`heading_2`, its `rich_text` is non-empty, and the plain text of the FIRST
span equals the target label. -/
def headingMatches (label : String) (b : Block) : Bool :=
  match b with
  | .heading2 (t :: _) => t == label
  | _ => false

/-- Mirrors the scanning loop of `update_text_field`: walk the blocks in
order; after the first matching heading, inspect only the single next block
(the loop breaks there regardless of its type); if that block is a
paragraph, return its index together with its joined old text. -/
def findTarget (label : String) : List Block → Option (Nat × String)
  | [] => none
  | b :: rest =>
    if headingMatches label b then
      match rest with
      | Block.paragraph rts :: _ => some (1, plain_text_of rts)
      | _ => none
    else
      (findTarget label rest).map (fun p => (p.1 + 1, p.2))

/-- The section-merge algorithm of `update_text_field` (src/diary_bot.py,
lines 411-474), acting on the list of top-level blocks of the page: if a
target paragraph is identified, its rich text is replaced by the single
span `old_text ++ "\n\n" ++ new_text`; otherwise a fresh heading plus
paragraph pair is appended at the end of the page. -/
def update_text_field (field : Field) (new_text : String) (blocks : List Block) : List Block :=
  match findTarget (heading_map field) blocks with
  | some (i, old_text) => blocks.set i (Block.paragraph [old_text ++ "\n\n" ++ new_text])
  | none => blocks ++ [Block.heading2 [heading_map field], Block.paragraph [new_text]]

/-- Restates the amended claim C1 in its own words: scan the top-level
blocks in order for the first heading whose FIRST rich-text span equals the
fixed label of the field; if one is found and the single block immediately
following it is a paragraph, replace that paragraph with the merged text,
leaving everything else in place; in every other case append a fresh
heading plus paragraph pair at the end and modify no existing block. -/
def spec_patch_scan (label new_text : String) : List Block → Option (List Block)
  | [] => none
  | b :: rest =>
    if headingMatches label b then
      match rest with
      | Block.paragraph rts :: rest2 =>
        some (b :: Block.paragraph [plain_text_of rts ++ "\n\n" ++ new_text] :: rest2)
      | _ => none
    else
      (spec_patch_scan label new_text rest).map (fun bs => b :: bs)

/-- Top level of the amended-claim restatement: the merged document when a
section body was found, the append fallback otherwise. -/
def spec_patch_field (field : Field) (new_text : String) (blocks : List Block) : List Block :=
  match spec_patch_scan (heading_map field) new_text blocks with
  | some bs => bs
  | none => blocks ++ [Block.heading2 [heading_map field], Block.paragraph [new_text]]

lemma spec_patch_scan_eq_findTarget (label new_text : String) (blocks : List Block) :
    spec_patch_scan label new_text blocks =
      (findTarget label blocks).map
        (fun p => blocks.set p.1 (Block.paragraph [p.2 ++ "\n\n" ++ new_text])) := by
  induction blocks with
  | nil => simp [spec_patch_scan, findTarget]
  | cons b rest ih =>
    by_cases hb : headingMatches label b
    · cases rest with
      | nil => simp [spec_patch_scan, findTarget, hb]
      | cons b2 rest2 =>
        cases b2 with
        | paragraph rts => simp [spec_patch_scan, findTarget, hb, List.set]
        | heading2 rts => simp [spec_patch_scan, findTarget, hb]
        | image u => simp [spec_patch_scan, findTarget, hb]
        | other t => simp [spec_patch_scan, findTarget, hb]
    · simp only [spec_patch_scan, findTarget, hb, if_neg, Bool.false_eq_true, not_false_iff,
        ite_false, ih]
      cases h : findTarget label rest with
      | none => simp
      | some p => simp [List.set]

lemma findTarget_none_of_no_heading (label : String) (blocks : List Block)
    (h : ∀ b ∈ blocks, headingMatches label b = false) :
    findTarget label blocks = none := by
  induction blocks with
  | nil => rfl
  | cons b rest ih =>
    have hb : headingMatches label b = false := h b (by simp)
    simp only [findTarget, hb, Bool.false_eq_true, if_false,
      ih (fun x hx => h x (by simp [hx])), Option.map_none']

lemma headingMatches_label_self (label : String) :
    headingMatches label (Block.heading2 [label]) = true := by
  simp [headingMatches]

lemma findTarget_append_fresh_section (label t : String) (blocks : List Block)
    (h : ∀ b ∈ blocks, headingMatches label b = false) :
    findTarget label (blocks ++ [Block.heading2 [label], Block.paragraph [t]]) =
      some (blocks.length + 1, t) := by
  induction blocks with
  | nil =>
    simp [findTarget, headingMatches_label_self, plain_text_of, String.join]
  | cons b rest ih =>
    have hb : headingMatches label b = false := h b (by simp)
    have ih2 := ih (fun x hx => h x (by simp [hx]))
    simp [findTarget, hb, ih2]

lemma list_set_append_right {α : Type} (l₁ l₂ : List α) (i : Nat) (x : α) :
    (l₁ ++ l₂).set (l₁.length + i) x = l₁ ++ l₂.set i x := by
  induction l₁ with
  | nil => simp
  | cons a l ih =>
    simp only [List.cons_append, List.length_cons]
    have : l.length + 1 + i = (l.length + i) + 1 := by ring
    rw [this, List.set_cons_succ, ih]

/-- Claim C1, counterexample: the source compares only the FIRST rich-text
span of a heading with the label. On a document whose heading has the spans
"How was " and "the day?" (full text exactly the label) followed by a
paragraph, the claim as stated predicts a merge into that paragraph, but
the code appends a fresh section instead and leaves the paragraph as it
was. -/
theorem update_text_field_heading_full_text_cex :
    plain_text_of ["How was ", "the day?"] = "How was the day?" ∧
    update_text_field Field.memorable "new"
        [Block.heading2 ["How was ", "the day?"], Block.paragraph ["old"]]
      = [Block.heading2 ["How was ", "the day?"], Block.paragraph ["old"],
         Block.heading2 ["How was the day?"], Block.paragraph ["new"]] ∧
    update_text_field Field.memorable "new"
        [Block.heading2 ["How was ", "the day?"], Block.paragraph ["old"]]
      ≠ [Block.heading2 ["How was ", "the day?"],
         Block.paragraph ["old" ++ "\n\n" ++ "new"]] := by
  refine ⟨rfl, rfl, by decide⟩

/-- Claim C1 (amended): `update_text_field` behaves exactly as the claim
says once the heading test is read as comparing the FIRST rich-text span of
a `heading_2` block with the fixed label: if the first such heading is
immediately followed by a paragraph, that paragraph alone is replaced by
old text, two newlines and the new text; in every other case a fresh
heading plus paragraph pair is appended and no existing block is
modified. -/
theorem update_text_field_matches_first_span_spec (field : Field) (new_text : String)
    (blocks : List Block) :
    update_text_field field new_text blocks = spec_patch_field field new_text blocks := by
  unfold update_text_field spec_patch_field
  rw [spec_patch_scan_eq_findTarget]
  cases h : findTarget (heading_map field) blocks with
  | none => simp
  | some p =>
    obtain ⟨i, old⟩ := p
    simp

/-- Claim C7, counterexample: on a document that contains no paragraph at
all (hence no section paragraph for "How was the day?"), namely a matching
heading directly followed by an image, the second `PatchField` call does
not merge: the scan stops at the image after the first matching heading, so
both calls append, and no paragraph with the merged text "A\n\nB" is ever
produced. -/
theorem patch_twice_heading_no_paragraph_cex :
    (([Block.heading2 ["How was the day?"], Block.image "u"].all
      (fun b => ! b.isParagraph)) = true) ∧
    update_text_field Field.memorable "B"
        (update_text_field Field.memorable "A"
          [Block.heading2 ["How was the day?"], Block.image "u"])
      = [Block.heading2 ["How was the day?"], Block.image "u",
         Block.heading2 ["How was the day?"], Block.paragraph ["A"],
         Block.heading2 ["How was the day?"], Block.paragraph ["B"]] ∧
    ((update_text_field Field.memorable "B"
        (update_text_field Field.memorable "A"
          [Block.heading2 ["How was the day?"], Block.image "u"])).all
      (fun b => ! (b == Block.paragraph ["A" ++ "\n\n" ++ "B"]))) = true := by
  decide

/-- Claim C7 (amended): on a document with no heading whose first span is
"How was the day?" at all, `PatchField (memorable, "A")` appends a fresh
section with paragraph text "A", and the following
`PatchField (memorable, "B")` finds that section and merges, yielding the
paragraph "A\n\nB". -/
theorem patch_twice_after_no_heading (blocks : List Block)
    (h : ∀ b ∈ blocks, headingMatches "How was the day?" b = false) :
    update_text_field Field.memorable "A" blocks
      = blocks ++ [Block.heading2 ["How was the day?"], Block.paragraph ["A"]] ∧
    update_text_field Field.memorable "B" (update_text_field Field.memorable "A" blocks)
      = blocks ++ [Block.heading2 ["How was the day?"],
                   Block.paragraph ["A" ++ "\n\n" ++ "B"]] := by
  have hmap : heading_map Field.memorable = "How was the day?" := rfl
  have h1 : update_text_field Field.memorable "A" blocks
      = blocks ++ [Block.heading2 ["How was the day?"], Block.paragraph ["A"]] := by
    unfold update_text_field
    rw [hmap, findTarget_none_of_no_heading _ _ h]
  refine ⟨h1, ?_⟩
  rw [h1]
  unfold update_text_field
  rw [hmap, findTarget_append_fresh_section _ _ _ h]
  exact list_set_append_right blocks
    [Block.heading2 ["How was the day?"], Block.paragraph ["A"]] 1
    (Block.paragraph ["A" ++ "\n\n" ++ "B"])

/-- Witness for the amended claim C7 at a concrete one-paragraph document
with no matching heading. -/
theorem patch_twice_after_no_heading_witness :
    update_text_field Field.memorable "A" [Block.paragraph ["x"]]
      = [Block.paragraph ["x"]]
        ++ [Block.heading2 ["How was the day?"], Block.paragraph ["A"]] ∧
    update_text_field Field.memorable "B"
        (update_text_field Field.memorable "A" [Block.paragraph ["x"]])
      = [Block.paragraph ["x"]]
        ++ [Block.heading2 ["How was the day?"],
            Block.paragraph ["A" ++ "\n\n" ++ "B"]] :=
  patch_twice_after_no_heading [Block.paragraph ["x"]] (by decide)

/-- One record of the Entry Index (`bot_data["diary_entries"]` in the
source): the Notion page id and the optional emoji icon. -/
structure EntryData where
  page_id : String
  icon : Option String
deriving DecidableEq

/-- The Entry Index: a Python dict from ISO date to entry, modelled as an
association list keyed by calendar day number with dict update
semantics. -/
abbrev Index := List (Nat × EntryData)

/-- Dict assignment `index[date] = entry`: overwrite the value in place
when the key is present, append the new binding otherwise (Python dicts
keep insertion order and hold each key once). -/
def setEntry (idx : Index) (d : Nat) (e : EntryData) : Index :=
  if (idx.lookup d).isSome then
    idx.map (fun p => if p.1 = d then (d, e) else p)
  else
    idx ++ [(d, e)]

/-- The in-place overwrite of the binding for key `d`, the map step of
dict assignment on an association list. -/
def overwriteAt (d : Nat) (e : EntryData) : Nat × EntryData → Nat × EntryData :=
  fun p => if p.1 = d then (d, e) else p

lemma overwriteAt_eq_of_eq {p : Nat × EntryData} {d : Nat} (e : EntryData) (hp : p.1 = d) :
    overwriteAt d e p = (d, e) := by
  simp [overwriteAt, hp]

lemma overwriteAt_eq_of_ne {p : Nat × EntryData} {d : Nat} (e : EntryData) (hp : ¬ p.1 = d) :
    overwriteAt d e p = p := by
  simp [overwriteAt, hp]

lemma keys_map_overwriteAt (idx : Index) (d : Nat) (e : EntryData) :
    (idx.map (overwriteAt d e)).map Prod.fst = idx.map Prod.fst := by
  induction idx with
  | nil => rfl
  | cons p rest ih =>
    by_cases hp : p.1 = d
    · simp [overwriteAt, hp, ih]
    · simp [overwriteAt, hp, ih]

lemma lookup_isSome_iff_mem_keys (idx : Index) (d : Nat) :
    (idx.lookup d).isSome = true ↔ d ∈ idx.map Prod.fst := by
  induction idx with
  | nil => simp [List.lookup]
  | cons p rest ih =>
    by_cases hp : d = p.1
    · simp [List.lookup, hp]
    · have hb : (d == p.1) = false := by simp [hp]
      simp [List.lookup, hb, ih, hp]

lemma lookup_map_overwriteAt_self (idx : Index) (d : Nat) (e : EntryData)
    (h : (idx.lookup d).isSome = true) :
    (idx.map (overwriteAt d e)).lookup d = some e := by
  induction idx with
  | nil => simp [List.lookup] at h
  | cons p rest ih =>
    by_cases hp : p.1 = d
    · rw [List.map_cons, overwriteAt_eq_of_eq e hp]
      simp [List.lookup]
    · have hbd : (d == p.1) = false := by
        simp only [beq_eq_false_iff_ne, ne_eq]
        exact fun hdp => hp hdp.symm
      have h2 : (rest.lookup d).isSome = true := by simpa [List.lookup, hbd] using h
      rw [List.map_cons, overwriteAt_eq_of_ne e hp]
      simp [List.lookup, hbd, ih h2]

lemma lookup_map_overwriteAt_ne (idx : Index) (d d2 : Nat) (e : EntryData) (hne : d2 ≠ d) :
    (idx.map (overwriteAt d e)).lookup d2 = idx.lookup d2 := by
  induction idx with
  | nil => rfl
  | cons p rest ih =>
    by_cases hp : p.1 = d
    · have hb1 : (d2 == d) = false := by simp [hne]
      have hb2 : (d2 == p.1) = false := by rw [hp]; exact hb1
      rw [List.map_cons, overwriteAt_eq_of_eq e hp]
      simp [List.lookup, hb1, hb2, ih]
    · rw [List.map_cons, overwriteAt_eq_of_ne e hp]
      cases hb : (d2 == p.1) <;> simp [List.lookup, hb, ih]

lemma lookup_append_single_self (idx : Index) (d : Nat) (e : EntryData)
    (h : idx.lookup d = none) :
    (idx ++ [(d, e)]).lookup d = some e := by
  induction idx with
  | nil => simp [List.lookup]
  | cons p rest ih =>
    have hbd : (d == p.1) = false := by
      cases hb : (d == p.1)
      · rfl
      · exfalso
        simp [List.lookup, hb] at h
    have h2 : rest.lookup d = none := by simpa [List.lookup, hbd] using h
    simp [List.lookup, hbd, ih h2]

lemma lookup_append_single_ne (idx : Index) (d d2 : Nat) (e : EntryData) (hne : d2 ≠ d) :
    (idx ++ [(d, e)]).lookup d2 = idx.lookup d2 := by
  induction idx with
  | nil =>
    have hb : (d2 == d) = false := by simp [hne]
    simp [List.lookup, hb]
  | cons p rest ih =>
    cases hb : (d2 == p.1) <;> simp [List.lookup, hb, ih]

lemma keys_setEntry_nodup (idx : Index) (d : Nat) (e : EntryData)
    (h : (idx.map Prod.fst).Nodup) :
    ((setEntry idx d e).map Prod.fst).Nodup := by
  unfold setEntry
  cases hs : (idx.lookup d).isSome
  · have hd : d ∉ idx.map Prod.fst := by
      intro hmem
      have hmem2 := (lookup_isSome_iff_mem_keys idx d).mpr hmem
      rw [hs] at hmem2
      exact absurd hmem2 (by decide)
    simp only [hs, Bool.false_eq_true, if_false, List.map_append, List.map_cons, List.map_nil]
    refine List.Nodup.append h (by simp) ?_
    intro x hx hxd
    rw [List.mem_singleton] at hxd
    subst hxd
    exact hd hx
  · simp only [hs, if_true]
    have := keys_map_overwriteAt idx d e
    rw [show (fun p => if p.1 = d then (d, e) else p) = overwriteAt d e from rfl, this]
    exact h

lemma lookup_setEntry_self (idx : Index) (d : Nat) (e : EntryData) :
    (setEntry idx d e).lookup d = some e := by
  unfold setEntry
  cases hs : (idx.lookup d).isSome
  · simp only [hs, Bool.false_eq_true, if_false]
    refine lookup_append_single_self idx d e ?_
    cases hc : idx.lookup d
    · rfl
    · rw [hc] at hs
      exact absurd hs (by simp)
  · simp only [hs, if_true]
    exact lookup_map_overwriteAt_self idx d e hs

lemma lookup_setEntry_ne (idx : Index) (d d2 : Nat) (e : EntryData) (hne : d2 ≠ d) :
    (setEntry idx d e).lookup d2 = idx.lookup d2 := by
  unfold setEntry
  cases hs : (idx.lookup d).isSome
  · simp only [hs, Bool.false_eq_true, if_false]
    exact lookup_append_single_ne idx d d2 e hne
  · simp only [hs, if_true]
    exact lookup_map_overwriteAt_ne idx d d2 e hne

/-- The conversation states of the state machine (the integer constants of
the source plus the `ConversationHandler.END` sentinel). -/
inductive ConvState where
  | ASKING_UPDATE
  | MEMORABLE
  | GRATEFUL
  | WORRIES
  | PHOTO
  | UPDATING_MENU
  | UPDATING_MEMORABLE
  | UPDATING_GRATEFUL
  | UPDATING_WORRIES
  | ASKING_EMOJI
  | ASKING_CHECKBOXES
  | END
deriving DecidableEq

/-- The per-conversation `context.user_data` dict. Free-text fields and the
icon are optional (key absent until set). The checkbox keys are read with a
default of false everywhere in the source, so absence and false coincide
and they are modelled as plain booleans; `photos` is read with an implicit
default of an empty list in the same way. -/
structure Draft where
  memorable : Option String := none
  grateful : Option String := none
  worries : Option String := none
  photos : List String := []
  checkbox_s : Bool := false
  checkbox_sleep_separate : Bool := false
  checkbox_tears : Bool := false
  icon : Option String := none
  is_update : Bool := false
deriving DecidableEq

/-- A heading plus paragraph section for one optional free-text field, as
emitted by `build_notion_page_content`; the Python truthiness test on the
dict value skips both an absent key and an empty string. -/
def sectionFor (label : String) (v : Option String) : List Block :=
  match v with
  | some t => if t = "" then [] else [Block.heading2 [label], Block.paragraph [t]]
  | none => []

/-- The block list built by `build_notion_page_content` for a new page:
one section per non-empty free-text field, in the fixed order memorable,
grateful, worries, then a "Pics" heading followed by one image block per
photo when any photos exist. -/
def build_notion_page_content (d : Draft) : List Block :=
  sectionFor "How was the day?" d.memorable ++
  sectionFor "Grateful for" d.grateful ++
  sectionFor "Worries" d.worries ++
  (if d.photos = [] then [] else Block.heading2 ["Pics"] :: d.photos.map Block.image)

/-- Outcome of `create_notion_page`: whether the page-creation request was
issued, the content of the page the document store created on success, and
the Entry Index after the call. -/
structure CreateResult where
  createCalled : Bool
  createdPage : Option (List Block)
  index : Index
deriving DecidableEq

/-- The `create_notion_page` function (src/diary_bot.py, lines 99-127):
issues the page-creation request unconditionally (there is no check of the
Entry Index), and on a successful response stores the returned page id and
the icon of the draft in the index under the current date, overwriting any
binding already there. `apiResponse` is the page id returned by the
document store, or none when the request failed. -/
def create_notion_page (draft : Draft) (today : Nat) (apiResponse : Option String)
    (idx : Index) : CreateResult :=
  match apiResponse with
  | some page_id =>
    { createCalled := true
      createdPage := some (build_notion_page_content draft)
      index := setEntry idx today ⟨page_id, draft.icon⟩ }
  | none =>
    { createCalled := true
      createdPage := none
      index := idx }

/-- Claim C2, counterexample: with an entry already present for the date,
`create_notion_page` still issues the page-creation request and the Entry
Index binding for that date is replaced by the newly created page, so the
call is neither free of page creation nor a no-op on the index. -/
theorem create_notion_page_existing_entry_cex :
    (create_notion_page { icon := none } 100 (some "p2")
        [(100, ⟨"p1", none⟩)]).createCalled = true ∧
    (create_notion_page { icon := none } 100 (some "p2")
        [(100, ⟨"p1", none⟩)]).index ≠ [(100, ⟨"p1", none⟩)] ∧
    (create_notion_page { icon := none } 100 (some "p2")
        [(100, ⟨"p1", none⟩)]).index.lookup 100 = some ⟨"p2", none⟩ := by
  refine ⟨rfl, by decide, by decide⟩

/-- Claim C2 (amended): the Entry Index, being a dict keyed by date, holds
at most one entry per date in every state reached by its operations (the
keys stay pairwise distinct across `create_notion_page`); however the
create operation does not check the index: it always issues the
page-creation request, and on success it overwrites the binding for the
current date with the new page while leaving every other date unchanged;
on failure the index is unchanged. Callers, not the create operation,
guard against duplicate creation by consulting the index first. -/
theorem create_notion_page_unconditional (draft : Draft) (today : Nat)
    (apiResponse : Option String) (idx : Index)
    (h : (idx.map Prod.fst).Nodup) :
    (create_notion_page draft today apiResponse idx).createCalled = true ∧
    (((create_notion_page draft today apiResponse idx).index.map Prod.fst).Nodup) ∧
    (apiResponse = none → (create_notion_page draft today apiResponse idx).index = idx) ∧
    (∀ pid, apiResponse = some pid →
      (create_notion_page draft today apiResponse idx).index.lookup today
          = some ⟨pid, draft.icon⟩ ∧
      (∀ d2, d2 ≠ today →
        (create_notion_page draft today apiResponse idx).index.lookup d2
            = idx.lookup d2)) := by
  cases apiResponse with
  | none => exact ⟨rfl, h, fun _ => rfl, fun pid hpid => by cases hpid⟩
  | some pid0 =>
    refine ⟨rfl, keys_setEntry_nodup idx today ⟨pid0, draft.icon⟩ h, ?_, ?_⟩
    · intro hc
      cases hc
    intro pid hpid
    obtain rfl : pid0 = pid := Option.some.inj hpid
    exact ⟨lookup_setEntry_self idx today ⟨pid0, draft.icon⟩,
      fun d2 hd2 => lookup_setEntry_ne idx today d2 ⟨pid0, draft.icon⟩ hd2⟩

/-- Witness for the amended claim C2 at a concrete index that already
holds a different date. -/
theorem create_notion_page_unconditional_witness :
    (create_notion_page { icon := some "E" } 7 (some "pg")
        [(3, ⟨"old", none⟩)]).createCalled = true ∧
    (create_notion_page { icon := some "E" } 7 (some "pg")
        [(3, ⟨"old", none⟩)]).index.lookup 7 = some ⟨"pg", some "E"⟩ ∧
    (create_notion_page { icon := some "E" } 7 (some "pg")
        [(3, ⟨"old", none⟩)]).index.lookup 3 = some ⟨"old", none⟩ := by
  have h := create_notion_page_unconditional { icon := some "E" } 7 (some "pg")
    [(3, ⟨"old", none⟩)] (by decide)
  exact ⟨h.1, (h.2.2.2 "pg" rfl).1, ((h.2.2.2 "pg" rfl).2 3 (by decide))⟩

/-- The code-point ranges of the emoji regex in `is_valid_emoji`
(src/diary_bot.py, lines 147-165), in the order of the source: emoticons,
symbols and pictographs, transport and map symbols, alchemical symbols,
geometric shapes extended, supplemental arrows C, supplemental symbols and
pictographs, chess symbols, symbols and pictographs extended A, dingbats,
and the final catch-all range U+24C2 to U+1F251. -/
def emoji_ranges : List (Nat × Nat) :=
  [(0x1F600, 0x1F64F), (0x1F300, 0x1F5FF), (0x1F680, 0x1F6FF), (0x1F700, 0x1F77F),
   (0x1F780, 0x1F7FF), (0x1F800, 0x1F8FF), (0x1F900, 0x1F9FF), (0x1FA00, 0x1FA6F),
   (0x1FA70, 0x1FAFF), (0x2702, 0x27B0), (0x24C2, 0x1F251)]

/-- True when the character falls in one of the ranges of the regex
character class. -/
def char_in_emoji_ranges (c : Char) : Bool :=
  emoji_ranges.any (fun r => decide (r.1 ≤ c.toNat) && decide (c.toNat ≤ r.2))

/-- The `is_valid_emoji` check: the string has exactly one character
(Python code points, so one `Char`) and the regex matches at its start,
which for a one-character string means that character lies in the
character class. -/
def is_valid_emoji (s : String) : Bool :=
  s.length == 1 &&
    (match s.data with
     | c :: _ => char_in_emoji_ranges c
     | [] => false)

/-- Claim C5, counterexample: the catch-all range U+24C2 to U+1F251 of the
regex contains vast stretches of ordinary text, so a plain single
character such as the CJK ideograph U+4E2D is accepted, refuting the part
of the claim that says every plain-text single character is rejected. -/
theorem is_valid_emoji_plain_cjk_cex :
    is_valid_emoji (String.singleton (Char.ofNat 0x4E2D)) = true ∧
    is_valid_emoji (String.singleton (Char.ofNat 0x41)) = false ∧
    is_valid_emoji "ab" = false := by
  refine ⟨by decide, by decide, by decide⟩

/-- Claim C5 (amended): the validator accepts a string exactly when it is
one character long and that character lies in the union of the coded
ranges, which simplifies to U+24C2 to U+1F251, U+1F300 to U+1F64F and
U+1F680 to U+1FAFF; every multi-character string is rejected and so is
every single character below U+24C2 (all ASCII and Latin text), but the
catch-all range means that not every plain-text single character is
rejected: characters such as CJK ideographs are accepted. -/
theorem is_valid_emoji_characterization (s : String) :
    is_valid_emoji s = true ↔
      ∃ c, s.data = [c] ∧
        ((0x24C2 ≤ c.toNat ∧ c.toNat ≤ 0x1F251) ∨
         (0x1F300 ≤ c.toNat ∧ c.toNat ≤ 0x1F64F) ∨
         (0x1F680 ≤ c.toNat ∧ c.toNat ≤ 0x1FAFF)) := by
  obtain ⟨data⟩ := s
  match data with
  | [] => simp [is_valid_emoji, String.length]
  | [c] =>
    have hred : is_valid_emoji ⟨[c]⟩ = char_in_emoji_ranges c := by
      simp [is_valid_emoji, String.length]
    rw [hred]
    unfold char_in_emoji_ranges emoji_ranges
    simp only [List.any_cons, List.any_nil, Bool.or_false, Bool.or_eq_true,
      Bool.and_eq_true, decide_eq_true_eq]
    constructor
    · intro h
      refine ⟨c, rfl, ?_⟩
      omega
    · rintro ⟨c2, hc2, h⟩
      simp only [List.cons.injEq, and_true] at hc2
      subst hc2
      omega
  | c1 :: c2 :: rest =>
    constructor
    · intro h
      exfalso
      simp [is_valid_emoji, String.length] at h
    · rintro ⟨c, hc, _⟩
      cases hc

/-- The negative-acknowledgment list of the `worries` handler. -/
def negative_acknowledgments : List String :=
  ["none", "no", "nope"]

/-- Python `str.lower`, modelled as the per-character lowercase map; the
comparison targets of the source are plain ASCII words, for which the
ASCII `Char.toLower` agrees with Python. -/
def lower_string (s : String) : String :=
  ⟨s.data.map Char.toLower⟩

/-- The `worries` handler (src/diary_bot.py, lines 228-233): store the
reply text in the draft unless its lowercase form is in the
negative-acknowledgment list, then hand over to `ask_checkboxes`, which
initialises the checkbox keys (a no-op in this model, where the keys carry
a default of false) and returns the checkbox state. -/
def worries_handler (draft : Draft) (text : String) : Draft × ConvState :=
  let d :=
    if negative_acknowledgments.contains (lower_string text) then draft
    else { draft with worries := some text }
  (d, ConvState.ASKING_CHECKBOXES)

/-- Claim C8: in the Worries state, a reply whose case-insensitive form is
exactly "none", "no" or "nope" leaves the worries field unset, any other
non-empty text is stored verbatim, and in either case the conversation
advances to the Checkboxes state. -/
theorem worries_negative_ack (draft : Draft) (text : String)
    (hunset : draft.worries = none) (hnonempty : text ≠ "") :
    (worries_handler draft text).2 = ConvState.ASKING_CHECKBOXES ∧
    (negative_acknowledgments.contains (lower_string text) = true →
      (worries_handler draft text).1.worries = none) ∧
    (negative_acknowledgments.contains (lower_string text) = false →
      (worries_handler draft text).1.worries = some text) := by
  cases hm : negative_acknowledgments.contains (lower_string text) with
  | true =>
    refine ⟨rfl, fun _ => ?_, fun hfalse => ?_⟩
    · simp only [worries_handler]
      rw [hm]
      simpa using hunset
    · cases hfalse
  | false =>
    refine ⟨rfl, fun htrue => ?_, fun _ => ?_⟩
    · cases htrue
    · simp only [worries_handler]
      rw [hm]
      simp

/-- Witness for claim C8 on a mixed-case negative acknowledgment and on an
ordinary reply. -/
theorem worries_negative_ack_witness :
    (worries_handler {} "NoPe").1.worries = none ∧
    (worries_handler {} "rainy day").1.worries = some "rainy day" ∧
    (worries_handler {} "NoPe").2 = ConvState.ASKING_CHECKBOXES := by
  have h1 := worries_negative_ack {} "NoPe" rfl (by decide)
  have h2 := worries_negative_ack {} "rainy day" rfl (by decide)
  exact ⟨h1.2.1 (by decide), h2.2.2 (by decide), h1.1⟩

/-- The remote Notion page as far as the property and block patches touch
it: the icon, the three checkbox properties, the photos property, and the
block children. -/
structure RemotePage where
  icon : Option String := none
  prop_s : Bool := false
  prop_sleep_separate : Bool := false
  prop_tears : Bool := false
  prop_photos : Bool := false
  blocks : List Block := []
deriving DecidableEq

/-- The `update_notion_page_properties` call (src/diary_bot.py, lines
129-140): unconditionally overwrite the three checkbox properties from the
draft, and include the icon in the payload only when the draft has one, so
the icon of the page is overwritten exactly when the draft icon is set. -/
def update_notion_page_properties (page : RemotePage) (draft : Draft) : RemotePage :=
  { page with
    prop_s := draft.checkbox_s
    prop_sleep_separate := draft.checkbox_sleep_separate
    prop_tears := draft.checkbox_tears
    icon :=
      match draft.icon with
      | some i => some i
      | none => page.icon }

/-- The `emoji` handler (src/diary_bot.py, lines 306-331): if the input is
a single valid emoji, store it in the draft (an invalid input leaves the
draft icon as it was); then, in update mode, when the Entry Index has an
entry for today with a page id, patch the page properties and overwrite
the icon of the index entry with the current draft icon, and return to the
update menu; in create mode, continue to the photo step. The `page`
argument is the remote page the patch would address. -/
def emoji_handler (draft : Draft) (entryToday : Option EntryData) (page : RemotePage)
    (text : String) : Draft × Option EntryData × RemotePage × ConvState :=
  let d := if is_valid_emoji text then { draft with icon := some text } else draft
  if d.is_update then
    match entryToday with
    | some e =>
      if e.page_id = "" then
        (d, entryToday, page, ConvState.UPDATING_MENU)
      else
        (d, some { e with icon := d.icon }, update_notion_page_properties page d,
          ConvState.UPDATING_MENU)
    | none => (d, none, page, ConvState.UPDATING_MENU)
  else
    (d, entryToday, page, ConvState.PHOTO)

/-- Claim C9, counterexample: an invalid emoji input does not clear the
draft icon, it leaves it as it was. Starting an update-mode emoji step
with a draft icon already set from an earlier emoji edit, an invalid input
still writes that earlier icon into the Entry Index entry and into the
remote page, while the claim predicts no icon in the index and an
untouched remote icon. -/
theorem emoji_update_invalid_keeps_icon_cex :
    is_valid_emoji "hello" = false ∧
    (emoji_handler { icon := some "😀", is_update := true } (some ⟨"p1", some "🌧"⟩)
        { icon := some "🌧" } "hello").2.1 = some ⟨"p1", some "😀"⟩ ∧
    (emoji_handler { icon := some "😀", is_update := true } (some ⟨"p1", some "🌧"⟩)
        { icon := some "🌧" } "hello").2.1 ≠ some ⟨"p1", none⟩ ∧
    (emoji_handler { icon := some "😀", is_update := true } (some ⟨"p1", some "🌧"⟩)
        { icon := some "🌧" } "hello").2.2.1.icon = some "😀" ∧
    (emoji_handler { icon := some "😀", is_update := true } (some ⟨"p1", some "🌧"⟩)
        { icon := some "🌧" } "hello").2.2.1.icon ≠ some "🌧" := by
  refine ⟨by decide, by decide, by decide, by decide, by decide⟩

/-- Claim C9 (amended): in update mode with an entry for today present,
the emoji step always overwrites the icon of the index entry with the
CURRENT draft icon, which an invalid input leaves unchanged rather than
unset; the property patch writes an icon to the remote page exactly when
the draft icon is set; therefore after an invalid input the index records
no icon and the remote page keeps its previous icon only when the draft
icon was unset before the step. -/
theorem emoji_update_characterization (draft : Draft) (e : EntryData) (page : RemotePage)
    (text : String) (hupd : draft.is_update = true) (hpid : ¬ e.page_id = "") :
    ((emoji_handler draft (some e) page text).2.2.2 = ConvState.UPDATING_MENU) ∧
    (is_valid_emoji text = false →
      (emoji_handler draft (some e) page text).1.icon = draft.icon ∧
      (emoji_handler draft (some e) page text).2.1 = some { e with icon := draft.icon } ∧
      (draft.icon = none →
        (emoji_handler draft (some e) page text).2.2.1.icon = page.icon) ∧
      (∀ i, draft.icon = some i →
        (emoji_handler draft (some e) page text).2.2.1.icon = some i)) ∧
    (is_valid_emoji text = true →
      (emoji_handler draft (some e) page text).1.icon = some text ∧
      (emoji_handler draft (some e) page text).2.1 = some { e with icon := some text } ∧
      (emoji_handler draft (some e) page text).2.2.1.icon = some text) := by
  cases hv : is_valid_emoji text with
  | false =>
    refine ⟨?_, fun _ => ⟨?_, ?_, fun hnone => ?_, fun i hsome => ?_⟩, fun htrue => ?_⟩
    · simp [emoji_handler, hv, hupd, hpid]
    · simp [emoji_handler, hv, hupd, hpid]
    · simp [emoji_handler, hv, hupd, hpid]
    · simp [emoji_handler, hv, hupd, hpid, update_notion_page_properties, hnone]
    · simp [emoji_handler, hv, hupd, hpid, update_notion_page_properties, hsome]
    · cases htrue
  | true =>
    refine ⟨?_, fun hfalse => ?_, fun _ => ⟨?_, ?_, ?_⟩⟩
    · simp [emoji_handler, hv, hupd, hpid]
    · cases hfalse
    · simp [emoji_handler, hv, hupd, hpid]
    · simp [emoji_handler, hv, hupd, hpid]
    · simp [emoji_handler, hv, hupd, hpid, update_notion_page_properties]

/-- Witness for the amended claim C9: a first-time update-mode emoji step
with an invalid input, where the draft icon is unset, records no icon in
the index and leaves the remote icon untouched. -/
theorem emoji_update_characterization_witness :
    (emoji_handler { is_update := true } (some ⟨"p", none⟩) {} "x").1.icon = none ∧
    (emoji_handler { is_update := true } (some ⟨"p", none⟩) {} "x").2.1
      = some ⟨"p", none⟩ ∧
    (emoji_handler { is_update := true } (some ⟨"p", none⟩) {} "x").2.2.1.icon = none ∧
    (emoji_handler { is_update := true } (some ⟨"p", none⟩) {} "x").2.2.2
      = ConvState.UPDATING_MENU := by
  have h := emoji_update_characterization { is_update := true } ⟨"p", none⟩ {} "x"
    rfl (by decide)
  have hinv : is_valid_emoji "x" = false := by decide
  have h2 := h.2.1 hinv
  exact ⟨h2.1, h2.2.1, h2.2.2.1 rfl, h.1⟩

/-- The fixed user-facing replies of the handlers that matter here,
modelled as tags (the exact wording is fixed in the source and carries no
logic). None of the tags below is an error report except
`errorPageNotFound` and `errorFetchFailed`, the two error replies of
`update_text_field`. -/
inductive Reply where
  | checkboxesSaved
  | picsAdded
  | entrySaved
  | errorPageNotFound
  | errorFetchFailed
deriving DecidableEq

/-- A call to the document store client, for call-trace reasoning. -/
inductive NotionCall where
  | createPage
  | patchProperties (page_id : String)
  | appendBlocks (page_id : String) (blocks : List Block)
  | patchPhotosFlag (page_id : String)
deriving DecidableEq

/-- The lookup
`bot_data.get("diary_entries", \x7b\x7d).get(today, \x7b\x7d).get("page_id")`
with Python truthiness on the result: no entry for today, or an empty page
id, yields no usable page id. -/
def pageIdFor (entryToday : Option EntryData) : Option String :=
  match entryToday with
  | some e => if e.page_id = "" then none else some e.page_id
  | none => none

/-- The `done_checkboxes` handler (src/diary_bot.py, lines 281-294): reply
"Checkboxes saved!", then in update mode patch the page properties only
when a page id for today exists and return to the update menu; in create
mode continue to the emoji step. -/
def done_checkboxes (draft : Draft) (entryToday : Option EntryData) :
    List NotionCall × Reply × ConvState :=
  if draft.is_update then
    match pageIdFor entryToday with
    | some pid => ([NotionCall.patchProperties pid], Reply.checkboxesSaved,
        ConvState.UPDATING_MENU)
    | none => ([], Reply.checkboxesSaved, ConvState.UPDATING_MENU)
  else
    ([], Reply.checkboxesSaved, ConvState.ASKING_EMOJI)

/-- The image blocks built by `done_photo` for the collected photos. -/
def photo_blocks (photos : List String) : List Block :=
  photos.map Block.image

/-- The `done_photo` handler (src/diary_bot.py, lines 353-375): in update
mode, only when a page id for today exists AND photos were collected,
append the image blocks and set the Photos property; reply "Pics added!"
and return to the update menu in every update-mode case; in create mode,
commit the draft through page creation and end the conversation. -/
def done_photo (draft : Draft) (entryToday : Option EntryData) :
    List NotionCall × Reply × ConvState :=
  if draft.is_update then
    match pageIdFor entryToday with
    | some pid =>
      if draft.photos = [] then
        ([], Reply.picsAdded, ConvState.UPDATING_MENU)
      else
        ([NotionCall.appendBlocks pid (photo_blocks draft.photos),
          NotionCall.patchPhotosFlag pid], Reply.picsAdded, ConvState.UPDATING_MENU)
    | none => ([], Reply.picsAdded, ConvState.UPDATING_MENU)
  else
    ([NotionCall.createPage], Reply.entrySaved, ConvState.END)

/-- Claim C10: in update mode with no Entry Index entry for today,
finishing the Checkboxes sub-flow and finishing the Photos sub-flow each
perform no document-store call, reply with their normal non-error message,
and return control to the update menu. -/
theorem update_mode_no_entry_no_calls (draft : Draft) (hupd : draft.is_update = true) :
    done_checkboxes draft none = ([], Reply.checkboxesSaved, ConvState.UPDATING_MENU) ∧
    done_photo draft none = ([], Reply.picsAdded, ConvState.UPDATING_MENU) ∧
    Reply.checkboxesSaved ≠ Reply.errorPageNotFound ∧
    Reply.checkboxesSaved ≠ Reply.errorFetchFailed ∧
    Reply.picsAdded ≠ Reply.errorPageNotFound ∧
    Reply.picsAdded ≠ Reply.errorFetchFailed := by
  refine ⟨?_, ?_, by decide, by decide, by decide, by decide⟩
  · simp [done_checkboxes, hupd, pageIdFor]
  · simp [done_photo, hupd, pageIdFor]

/-- Witness for claim C10 at a concrete update-mode draft with collected
photos and no entry for today. -/
theorem update_mode_no_entry_no_calls_witness :
    done_checkboxes { is_update := true, photos := ["u1"] } none
      = ([], Reply.checkboxesSaved, ConvState.UPDATING_MENU) ∧
    done_photo { is_update := true, photos := ["u1"] } none
      = ([], Reply.picsAdded, ConvState.UPDATING_MENU) := by
  have h := update_mode_no_entry_no_calls { is_update := true, photos := ["u1"] } rfl
  exact ⟨h.1, h.2.1⟩

/-- Outcome class of one attempt to send the daily prompt message:
delivered, failed with `telegram.error.NetworkError`, or failed with any
other exception. -/
inductive SendResult where
  | ok
  | netError
  | otherError
deriving DecidableEq

/-- A job placed on the job queue by the scheduler callbacks: a reminder
step (delay in seconds and reminder count) or a retry of the daily prompt
(delay in seconds and retry count). -/
inductive NextJob where
  | reminderJob (delaySec : Nat) (count : Nat)
  | promptRetry (delaySec : Nat) (retryCount : Nat)
deriving DecidableEq

/-- What one invocation of `daily_prompt` did: whether a send was
attempted, whether it was delivered, and the single job it scheduled, if
any. -/
structure PromptOutcome where
  attempted : Bool
  delivered : Bool
  next : Option NextJob
deriving DecidableEq

/-- The `daily_prompt` job callback (src/diary_bot.py, lines 568-600):
return immediately when an entry for today exists; otherwise attempt the
send; on success schedule reminder step 0 after two hours; on a network
error schedule a retry of itself after five minutes with the retry count
incremented, but only while the retry count is below 3; on any other error
schedule nothing. -/
def daily_prompt (entryExistsToday : Bool) (retry_count : Nat) (send : SendResult) :
    PromptOutcome :=
  if entryExistsToday then
    { attempted := false, delivered := false, next := none }
  else
    match send with
    | SendResult.ok =>
      { attempted := true, delivered := true
        next := some (NextJob.reminderJob (2 * 60 * 60) 0) }
    | SendResult.netError =>
      { attempted := true, delivered := false
        next :=
          if retry_count < 3 then some (NextJob.promptRetry (5 * 60) (retry_count + 1))
          else none }
    | SendResult.otherError =>
      { attempted := true, delivered := false, next := none }

/-- The chain of `daily_prompt` invocations produced by following the
retry jobs it schedules, fed with the send outcome of each successive
attempt; it stops when no retry is scheduled. `entryExistsToday` is false
throughout (the retries run the same day before any entry is created). -/
def promptRun (retry_count : Nat) : List SendResult → List PromptOutcome
  | [] => []
  | r :: rest =>
    let o := daily_prompt false retry_count r
    match o.next with
    | some (NextJob.promptRetry _ rc2) => o :: promptRun rc2 rest
    | _ => [o]

lemma promptRun_netError_length (rs : List SendResult) :
    ∀ rc, rc ≤ 3 → (∀ r ∈ rs, r = SendResult.netError) →
      (promptRun rc rs).length = min rs.length (4 - rc) := by
  induction rs with
  | nil =>
    intro rc _ _
    simp [promptRun]
  | cons r rest ih =>
    intro rc hrc hall
    have hr : r = SendResult.netError := hall r (by simp)
    subst hr
    by_cases h3 : rc < 3
    · have hnext : (daily_prompt false rc SendResult.netError).next
          = some (NextJob.promptRetry (5 * 60) (rc + 1)) := by
        simp [daily_prompt, h3]
      have ihr := ih (rc + 1) (by omega) (fun x hx => hall x (by simp [hx]))
      simp only [promptRun, hnext, List.length_cons, ihr]
      omega
    · have hnext : (daily_prompt false rc SendResult.netError).next = none := by
        simp [daily_prompt, h3]
      simp only [promptRun, hnext, List.length_cons, List.length_nil]
      omega

lemma promptRun_netError_no_reminder (rs : List SendResult) :
    ∀ rc, (∀ r ∈ rs, r = SendResult.netError) →
      ∀ o ∈ promptRun rc rs, ∀ d c, o.next ≠ some (NextJob.reminderJob d c) := by
  induction rs with
  | nil =>
    intro rc _ o ho
    simp [promptRun] at ho
  | cons r rest ih =>
    intro rc hall o ho d c
    have hr : r = SendResult.netError := hall r (by simp)
    subst hr
    by_cases h3 : rc < 3
    · have hnext : (daily_prompt false rc SendResult.netError).next
          = some (NextJob.promptRetry (5 * 60) (rc + 1)) := by
        simp [daily_prompt, h3]
      rw [promptRun] at ho
      simp only [hnext] at ho
      rcases List.mem_cons.mp ho with h1 | h2
      · subst h1
        rw [hnext]
        intro hc
        cases hc
      · exact ih (rc + 1) (fun x hx => hall x (by simp [hx])) o h2 d c
    · have hnext : (daily_prompt false rc SendResult.netError).next = none := by
        simp [daily_prompt, h3]
      rw [promptRun] at ho
      simp only [hnext] at ho
      rcases List.mem_cons.mp ho with h1 | h2
      · subst h1
        rw [hnext]
        intro hc
        cases hc
      · simp at h2

/-- Claim C3, counterexample: with every attempt failing on a network
error, the day sees four send attempts (the initial one plus three
retries), not three; the code gives up only once the retry count reaches
3, having already scheduled a fourth attempt, as its own log line "after 3
retries" states. -/
theorem daily_prompt_four_attempts_cex :
    (promptRun 0 (List.replicate 10 SendResult.netError)).length = 4 ∧
    ¬ (promptRun 0 (List.replicate 10 SendResult.netError)).length ≤ 3 := by
  refine ⟨by decide, by decide⟩

/-- Claim C3 (amended): a transient network failure reschedules the same
prompt after five minutes with the retry count incremented, for up to 4
attempts in total that day (the initial attempt plus 3 retries); with
every attempt failing transiently no reminder step is ever scheduled that
day and no fifth attempt occurs; a failure of any other class schedules no
retry at all. -/
theorem daily_prompt_retry_policy (rs : List SendResult) (rc : Nat)
    (hall : ∀ r ∈ rs, r = SendResult.netError) (hrc : rc ≤ 3) :
    (promptRun rc rs).length = min rs.length (4 - rc) ∧
    (∀ o ∈ promptRun rc rs, ∀ d c, o.next ≠ some (NextJob.reminderJob d c)) ∧
    (∀ k, k < 3 → (daily_prompt false k SendResult.netError).next
        = some (NextJob.promptRetry (5 * 60) (k + 1))) ∧
    (daily_prompt false 3 SendResult.netError).next = none ∧
    (∀ k, (daily_prompt false k SendResult.otherError).next = none) := by
  refine ⟨promptRun_netError_length rs rc hrc hall,
    promptRun_netError_no_reminder rs rc hall, ?_, by simp [daily_prompt], fun k => rfl⟩
  intro k hk
  simp [daily_prompt, hk]

/-- Witness for the amended claim C3: ten consecutive network failures
yield exactly four attempts. -/
theorem daily_prompt_retry_policy_witness :
    (promptRun 0 (List.replicate 10 SendResult.netError)).length = 4 ∧
    (daily_prompt false 0 SendResult.netError).next
      = some (NextJob.promptRetry (5 * 60) 1) ∧
    (daily_prompt false 0 SendResult.otherError).next = none := by
  have h := daily_prompt_retry_policy (List.replicate 10 SendResult.netError) 0
    (by simp) (by omega)
  refine ⟨?_, h.2.2.1 0 (by omega), h.2.2.2.2 0⟩
  have h1 := h.1
  simpa using h1

/-- What one invocation of `send_reminder` did: the index of the reminder
message sent from the fixed three-message list, if any, and the scheduled
next reminder job as a pair of delay in seconds and reminder count, if
any. -/
structure ReminderOutcome where
  sentMessage : Option Nat
  nextJob : Option (Nat × Nat)
deriving DecidableEq

/-- The number of entries of the fixed `reminder_messages` list of the
source (three escalating texts). -/
def reminder_message_count : Nat := 3

/-- The fixed `next_reminder_delays` list of the source: thirty minutes,
then ninety minutes, in seconds. -/
def next_reminder_delays : List Nat := [30 * 60, 90 * 60]

/-- The `send_reminder` job callback (src/diary_bot.py, lines 547-566):
when an entry for today exists, send nothing and schedule nothing;
otherwise send the message indexed by the reminder count when one exists,
and schedule the next step with the count incremented when another delay
remains in the ladder. -/
def send_reminder (entryExistsToday : Bool) (reminder_count : Nat) : ReminderOutcome :=
  if entryExistsToday then
    { sentMessage := none, nextJob := none }
  else
    { sentMessage :=
        if reminder_count < reminder_message_count then some reminder_count else none
      nextJob :=
        (next_reminder_delays.get? reminder_count).map
          (fun delay => (delay, reminder_count + 1)) }

/-- Claim C6: a delivered daily prompt schedules reminder step 0 two hours
later; a reminder firing with an entry present for today sends nothing and
schedules nothing; otherwise step 0 sends message 0 and schedules step 1
after thirty minutes, step 1 sends message 1 and schedules step 2 after
ninety minutes, and step 2, the last rung, sends message 2 and schedules
nothing further. -/
theorem reminder_ladder_schedule :
    (∀ rc : Nat, (daily_prompt false rc SendResult.ok).next
        = some (NextJob.reminderJob (2 * 60 * 60) 0)) ∧
    (∀ c : Nat, send_reminder true c = { sentMessage := none, nextJob := none }) ∧
    send_reminder false 0 = { sentMessage := some 0, nextJob := some (30 * 60, 1) } ∧
    send_reminder false 1 = { sentMessage := some 1, nextJob := some (90 * 60, 2) } ∧
    send_reminder false 2 = { sentMessage := some 2, nextJob := none } := by
  exact ⟨fun rc => rfl, fun c => rfl, rfl, rfl, rfl⟩

/-- A page returned by the database query during the cold-start sync:
the page id, the icon from the page metadata and the creation timestamp.
A missing id models the KeyError case and a missing timestamp models the
unparsable-timestamp ValueError case, both skipped by the sync loop.
Timestamps are minutes since the Unix epoch, UTC. -/
structure NotionPage where
  id : Option String
  icon : Option String
  created_time : Option Nat
deriving DecidableEq

/-- The calendar day extracted by the sync code: it parses the `Z`
timestamp into a UTC datetime and takes `.date()` on it, so the day is the
UTC day of the timestamp, with no timezone conversion. -/
def sync_entry_day (t : Nat) : Nat :=
  t / 1440

/-- Modelled from the spec: the cold-start rebuild is specified to derive
each entry date from the creation timestamp converted to the configured
timezone (Europe/Zurich); the conversion itself is outside src (pytz), so
it is modelled here for the winter instant used below, when Central
European Time is UTC plus 60 minutes (daylight saving does not apply in
January). -/
def zurich_day (t : Nat) : Nat :=
  (t + 60) / 1440

/-- One iteration of the sync loop of `post_init_setup` (src/diary_bot.py,
lines 602-632): a page with an id and a parsable creation time yields an
index binding under the UTC day of that time, carrying the page id and the
icon; any parsing failure yields nothing and the page is skipped. -/
def parse_sync_page (p : NotionPage) : Option (Nat × EntryData) :=
  match p.id, p.created_time with
  | some pid, some t => some (sync_entry_day t, ⟨pid, p.icon⟩)
  | _, _ => none

/-- The whole sync loop: fold the pages into an empty dict, assigning the
parsed binding of each page and skipping pages that fail to parse. -/
def sync_from_notion (pages : List NotionPage) : Index :=
  pages.foldl
    (fun idx p =>
      match parse_sync_page p with
      | some (d, e) => setEntry idx d e
      | none => idx)
    []

/-- Claim C4: the rebuild keys the entry of a page by the UTC calendar day
of its creation timestamp, not by the Europe/Zurich calendar day the spec
prescribes and the rest of the code uses. At 23:30 UTC on 2025-01-01 (day
20089 since the epoch), which is 00:30 of 2025-01-02 in Zurich, the two
days differ, so the synced key disagrees with the key every other write
path would use; the skip of unparsable pages, by contrast, behaves as
claimed. -/
theorem sync_uses_utc_day :
    sync_entry_day (20089 * 1440 + 23 * 60 + 30) = 20089 ∧
    zurich_day (20089 * 1440 + 23 * 60 + 30) = 20090 ∧
    sync_entry_day (20089 * 1440 + 23 * 60 + 30)
      ≠ zurich_day (20089 * 1440 + 23 * 60 + 30) ∧
    sync_from_notion
        [⟨some "p1", some "E", some (20089 * 1440 + 23 * 60 + 30)⟩,
         ⟨none, none, none⟩,
         ⟨some "p2", none, some (20090 * 1440 + 600)⟩]
      = [(20089, ⟨"p1", some "E"⟩), (20090, ⟨"p2", none⟩)] := by
  refine ⟨by decide, by decide, by decide, by decide⟩
